import Mathlib

/-!
Verification of the `vectils` segment library.

Shallow embedding of `src/lib.rs` (crate `vectils-0.1.0`).  The Rust
library defines a trait `Vector2d<T>` over any type `T` supporting
equality, ordering, copying and the four arithmetic operators; we
instantiate `T` with the exact rationals `ℚ`, which satisfy the same
operator interface with exact arithmetic.  Each default trait method is
translated literally from the source.
-/

namespace Vectils

/-- The `Vector2d` trait: four required accessors returning the
coordinates of the two endpoints.  Every other operation is derived
from these, exactly as the Rust trait's default method bodies. -/
class Vector2d (α : Type) where
  xi : α → ℚ
  yi : α → ℚ
  xf : α → ℚ
  yf : α → ℚ

namespace Vector2d

variable {α β : Type} [Vector2d α] [Vector2d β]

/-- Rust: `fn in_range(mut a: T, mut b: T, c: T) -> bool {
  if a > b { let tmp = a; a = b; b = tmp; } !(a > c || b < c) }` -/
def in_range (a b c : ℚ) : Bool :=
  let ab := if a > b then (b, a) else (a, b)
  !(decide (ab.1 > c) || decide (ab.2 < c))

/-- Rust: `fn w(&self) -> T { self.xf() - self.xi() }` -/
def w (s : α) : ℚ := xf s - xi s

/-- Rust: `fn h(&self) -> T { self.yf() - self.yi() }` -/
def h (s : α) : ℚ := yf s - yi s

/-- Rust: `fn delta(&self) -> T { self.w() / self.h() }` -/
def delta (s : α) : ℚ := w s / h s

/-- Rust: `fn in_dom(&self, pt_x: T) -> bool { in_range(self.xi(), self.xf(), pt_x) }` -/
def in_dom (s : α) (pt_x : ℚ) : Bool := in_range (xi s) (xf s) pt_x

/-- Rust: `fn linear(&self, pt_x: T) -> T { self.delta() * pt_x + self.yi() }` -/
def linear (s : α) (pt_x : ℚ) : ℚ := delta s * pt_x + yi s

/-- Rust: `fn cross<O: Vector2d<T>>(&self, b: &O) -> Option<[T;2]>`:
if the deltas differ, compute
`insct = ((self.yi() - b.yi()) * self.w() * b.w()) / (b.h() * self.w() - self.h() * b.w())`
and return `Some([insct, self.linear(insct)])` when `insct` is in both
domains, else `None`; if the deltas are equal return `None`. -/
def cross (s : α) (b : β) : Option (ℚ × ℚ) :=
  if delta s ≠ delta b then
    let insct := ((yi s - yi b) * w s * w b) / (h b * w s - h s * w b)
    if in_dom s insct && in_dom b insct then some (insct, linear s insct)
    else none
  else none

end Vector2d

/-- The tuple adapter: `impl<T> Vector2d<T> for (T,T,T,T)`, returning
the four components in order. -/
instance : Vector2d (ℚ × ℚ × ℚ × ℚ) where
  xi t := t.1
  yi t := t.2.1
  xf t := t.2.2.1
  yf t := t.2.2.2

/-- The array adapter: `impl<T> Vector2d<T> for [T;4]`, returning the
elements at indices 0..3. -/
instance : Vector2d (Fin 4 → ℚ) where
  xi a := a 0
  yi a := a 1
  xf a := a 2
  yf a := a 3

namespace Vector2d

@[simp] theorem tuple_xi (t : ℚ × ℚ × ℚ × ℚ) : xi t = t.1 := rfl

@[simp] theorem tuple_yi (t : ℚ × ℚ × ℚ × ℚ) : yi t = t.2.1 := rfl

@[simp] theorem tuple_xf (t : ℚ × ℚ × ℚ × ℚ) : xf t = t.2.2.1 := rfl

@[simp] theorem tuple_yf (t : ℚ × ℚ × ℚ × ℚ) : yf t = t.2.2.2 := rfl

@[simp] theorem array_xi (a : Fin 4 → ℚ) : xi a = a 0 := rfl

@[simp] theorem array_yi (a : Fin 4 → ℚ) : yi a = a 1 := rfl

@[simp] theorem array_xf (a : Fin 4 → ℚ) : xf a = a 2 := rfl

@[simp] theorem array_yf (a : Fin 4 → ℚ) : yf a = a 3 := rfl

end Vector2d

end Vectils

open Vectils Vector2d

/-- The sorted-bounds check: `in_range a b c` holds exactly when `c`
lies between the minimum and maximum of the two bounds, inclusively. -/
theorem in_range_iff (a b c : ℚ) :
    in_range a b c = true ↔ min a b ≤ c ∧ c ≤ max a b := by
  unfold in_range
  rcases le_or_lt a b with hab | hab
  · rw [if_neg (not_lt.2 hab)]
    simp [min_eq_left hab, max_eq_right hab, not_lt, and_comm]
  · rw [if_pos hab]
    simp [min_eq_right hab.le, max_eq_left hab.le, not_lt, and_comm]

/-- The intersection abscissa computed by `cross` is invariant under
swapping the two segments: numerator and denominator both negate. -/
theorem insct_swap {α β : Type} [Vector2d α] [Vector2d β] (A : α) (B : β) :
    ((yi B - yi A) * w B * w A) / (h A * w B - h B * w A)
      = ((yi A - yi B) * w A * w B) / (h B * w A - h A * w B) := by
  have hnum : (yi B - yi A) * w B * w A = -((yi A - yi B) * w A * w B) := by ring
  have hden : h A * w B - h B * w A = -(h B * w A - h A * w B) := by ring
  rw [hnum, hden, neg_div_neg_eq]

/-- Claim C2: for segments with differing deltas, `cross` computes
`insct = ((self.yi - other.yi) * self.w * other.w) / (other.h * self.w - self.h * other.w)`
and returns `some (insct, self.linear insct)` exactly when `insct` is
in both domains, otherwise `none`. -/
theorem claim_C2_thm {α β : Type} [Vector2d α] [Vector2d β]
    (s : α) (o : β) (hd : delta s ≠ delta o) :
    cross s o =
      if in_dom s (((yi s - yi o) * w s * w o) / (h o * w s - h s * w o))
          && in_dom o (((yi s - yi o) * w s * w o) / (h o * w s - h s * w o))
      then some ((((yi s - yi o) * w s * w o) / (h o * w s - h s * w o)),
                 linear s (((yi s - yi o) * w s * w o) / (h o * w s - h s * w o)))
      else none := by
  simp only [cross]
  rw [if_pos hd]

/-- Witness for claim C2 at the reference test pair: segment
`(0,0)→(5,5)` against `(5,0)→(0,5)`, whose intersection abscissa is 0. -/
theorem claim_C2_witness :
    cross ((0:ℚ), (0:ℚ), (5:ℚ), (5:ℚ)) ((5:ℚ), (0:ℚ), (0:ℚ), (5:ℚ)) = some (0, 0) := by
  have hd : delta ((0:ℚ), (0:ℚ), (5:ℚ), (5:ℚ)) ≠ delta ((5:ℚ), (0:ℚ), (0:ℚ), (5:ℚ)) := by
    norm_num [delta, w, h]
  rw [claim_C2_thm _ _ hd]
  norm_num [in_dom, in_range, linear, delta, w, h]

/-- Claim C4: two segments whose deltas are exactly equal never cross,
whatever their domains. -/
theorem claim_C4_thm {α β : Type} [Vector2d α] [Vector2d β]
    (s : α) (o : β) (hd : delta s = delta o) : cross s o = none := by
  simp [cross, hd]

/-- Witness for claim C4: two distinct parallel segments with
overlapping domains. -/
theorem claim_C4_witness :
    cross ((0:ℚ), (0:ℚ), (1:ℚ), (1:ℚ)) ((0:ℚ), (1:ℚ), (1:ℚ), (2:ℚ)) = none :=
  claim_C4_thm _ _ (by norm_num [delta, w, h])

/-- Claim C5: `in_range a b c` holds exactly when `c` lies between the
sorted bounds inclusively, and both bounds themselves are in range
whenever `a ≠ b`. -/
theorem claim_C5_thm (a b c : ℚ) :
    (in_range a b c = true ↔ min a b ≤ c ∧ c ≤ max a b)
    ∧ (a ≠ b → in_range a b a = true ∧ in_range a b b = true) := by
  refine ⟨in_range_iff a b c, fun _ => ⟨?_, ?_⟩⟩
  · exact (in_range_iff a b a).2 ⟨min_le_left a b, le_max_left a b⟩
  · exact (in_range_iff a b b).2 ⟨min_le_right a b, le_max_right a b⟩

/-- Witness for claim C5 at bounds 0 and 1 with test value 1/2. -/
theorem claim_C5_witness :
    (in_range 0 1 (1/2) = true ↔ min (0:ℚ) 1 ≤ 1/2 ∧ (1/2:ℚ) ≤ max 0 1)
    ∧ (in_range 0 1 0 = true ∧ in_range 0 1 1 = true) :=
  ⟨(claim_C5_thm 0 1 (1/2)).1, (claim_C5_thm 0 1 (1/2)).2 (by norm_num)⟩

/-- Claim C6: `in_range` is symmetric in its two bound arguments. -/
theorem claim_C6_thm (a b c : ℚ) : in_range a b c = in_range b a c := by
  unfold in_range
  rcases lt_trichotomy a b with hab | hab | hab
  · rw [if_neg (not_lt.2 hab.le), if_pos hab]
  · rw [hab]
  · rw [if_pos hab, if_neg (not_lt.2 hab.le)]

/-- Claim C7: `linear` is the literal formula `delta * x + yi`. -/
theorem claim_C7_thm {α : Type} [Vector2d α] (s : α) (x : ℚ) :
    linear s x = delta s * x + yi s := rfl

/-- Claim C8: `delta` is `w / h`, i.e. `(xf - xi) / (yf - yi)`, with
`w` and `h` the signed differences of the endpoint coordinates. -/
theorem claim_C8_thm {α : Type} [Vector2d α] (s : α) :
    delta s = w s / h s ∧ w s = xf s - xi s ∧ h s = yf s - yi s
    ∧ delta s = (xf s - xi s) / (yf s - yi s) :=
  ⟨rfl, rfl, rfl, rfl⟩

/-- Claim C10: a segment with nonzero height never crosses itself,
since its delta equals itself. -/
theorem claim_C10_thm {α : Type} [Vector2d α] (s : α) (_hh : h s ≠ 0) :
    cross s s = none := by
  simp [cross]

/-- Witness for claim C10 at the segment `(0,0)→(1,1)`. -/
theorem claim_C10_witness :
    cross ((0:ℚ), (0:ℚ), (1:ℚ), (1:ℚ)) ((0:ℚ), (0:ℚ), (1:ℚ), (1:ℚ)) = none :=
  claim_C10_thm _ (by norm_num [h])

/-- Counterexample to claim C1: the segments `(0,0)→(4,2)` and
`(0,4)→(4,2)` share their second endpoint, their deltas differ, and
their infinite line extensions (via `linear`) meet at `x = 1`, inside
both x-domains; yet `cross` in the two orders returns points with
different y-coordinates (`(4, 8)` versus `(4, -4)`). -/
theorem claim_C1_counterexample :
    delta ((0:ℚ), (0:ℚ), (4:ℚ), (2:ℚ)) ≠ delta ((0:ℚ), (4:ℚ), (4:ℚ), (2:ℚ))
    ∧ (∃ x : ℚ,
        linear ((0:ℚ), (0:ℚ), (4:ℚ), (2:ℚ)) x = linear ((0:ℚ), (4:ℚ), (4:ℚ), (2:ℚ)) x
        ∧ in_dom ((0:ℚ), (0:ℚ), (4:ℚ), (2:ℚ)) x = true
        ∧ in_dom ((0:ℚ), (4:ℚ), (4:ℚ), (2:ℚ)) x = true)
    ∧ cross ((0:ℚ), (0:ℚ), (4:ℚ), (2:ℚ)) ((0:ℚ), (4:ℚ), (4:ℚ), (2:ℚ)) = some (4, 8)
    ∧ cross ((0:ℚ), (4:ℚ), (4:ℚ), (2:ℚ)) ((0:ℚ), (0:ℚ), (4:ℚ), (2:ℚ)) = some (4, -4)
    ∧ cross ((0:ℚ), (0:ℚ), (4:ℚ), (2:ℚ)) ((0:ℚ), (4:ℚ), (4:ℚ), (2:ℚ))
        ≠ cross ((0:ℚ), (4:ℚ), (4:ℚ), (2:ℚ)) ((0:ℚ), (0:ℚ), (4:ℚ), (2:ℚ)) := by
  refine ⟨by norm_num [delta, w, h],
    ⟨1, by norm_num [linear, delta, w, h],
        by norm_num [in_dom, in_range],
        by norm_num [in_dom, in_range]⟩, ?_, ?_, ?_⟩
  · norm_num [cross, delta, w, h, in_dom, in_range, linear]
  · norm_num [cross, delta, w, h, in_dom, in_range, linear]
  · norm_num [cross, delta, w, h, in_dom, in_range, linear]

/-- Claim C1 (amended): for two segments with differing deltas whose
infinite line extensions meet at an x-coordinate inside both x-domains,
the two orders of `cross` agree on whether a point is returned and on
its x-coordinate; the y-coordinate is each receiver's own `linear`
value there and can differ between the two orders. -/
theorem claim_C1_amended_thm {α β : Type} [Vector2d α] [Vector2d β]
    (A : α) (B : β) (hd : delta A ≠ delta B)
    (_hx : ∃ x : ℚ, linear A x = linear B x ∧ in_dom A x = true ∧ in_dom B x = true) :
    Option.map Prod.fst (cross A B) = Option.map Prod.fst (cross B A) := by
  simp only [cross]
  rw [if_pos hd, if_pos (Ne.symm hd), insct_swap A B, Bool.and_comm]
  by_cases hc : (in_dom B (((yi A - yi B) * w A * w B) / (h B * w A - h A * w B))
      && in_dom A (((yi A - yi B) * w A * w B) / (h B * w A - h A * w B))) = true
  · rw [if_pos hc, if_pos hc]
    rfl
  · rw [if_neg hc, if_neg hc]

/-- Witness for the amended claim C1 at the counterexample pair. -/
theorem claim_C1_witness :
    Option.map Prod.fst
        (cross ((0:ℚ), (0:ℚ), (4:ℚ), (2:ℚ)) ((0:ℚ), (4:ℚ), (4:ℚ), (2:ℚ)))
      = Option.map Prod.fst
        (cross ((0:ℚ), (4:ℚ), (4:ℚ), (2:ℚ)) ((0:ℚ), (0:ℚ), (4:ℚ), (2:ℚ))) :=
  claim_C1_amended_thm _ _ (by norm_num [delta, w, h])
    ⟨1, by norm_num [linear, delta, w, h],
        by norm_num [in_dom, in_range],
        by norm_num [in_dom, in_range]⟩

/-- Counterexample to claim C3: for the segments `(0,0)→(1,2)` and
`(0,3)→(1,1)`, `cross` returns the point `(3/4, 3/8)`, but the second
segment's infinite line at `x = 3/4` passes through `21/8`, not `3/8`:
the returned point does not lie on both lines. -/
theorem claim_C3_counterexample :
    cross ((0:ℚ), (0:ℚ), (1:ℚ), (2:ℚ)) ((0:ℚ), (3:ℚ), (1:ℚ), (1:ℚ)) = some (3/4, 3/8)
    ∧ linear ((0:ℚ), (3:ℚ), (1:ℚ), (1:ℚ)) (3/4) ≠ 3/8 := by
  constructor
  · norm_num [cross, delta, w, h, in_dom, in_range, linear]
  · norm_num [linear, delta, w, h]

/-- Claim C3 (amended): whenever `cross` returns a point `(x, y)`, the
y-coordinate is the RECEIVER's own line value `self.linear x` (not, in
general, the other segment's), and `x` lies in both x-domains. -/
theorem claim_C3_amended_thm {α β : Type} [Vector2d α] [Vector2d β]
    (s : α) (o : β) (x y : ℚ) (hc : cross s o = some (x, y)) :
    y = linear s x ∧ in_dom s x = true ∧ in_dom o x = true := by
  simp only [cross] at hc
  split at hc
  · split at hc
    · rename_i hdom
      rw [Option.some.injEq, Prod.mk.injEq] at hc
      obtain ⟨hx, hy⟩ := hc
      rw [hx] at hdom hy
      rw [Bool.and_eq_true] at hdom
      exact ⟨hy.symm, hdom.1, hdom.2⟩
    · exact absurd hc (by simp)
  · exact absurd hc (by simp)

/-- Witness for the amended claim C3 at the counterexample pair. -/
theorem claim_C3_witness :
    (3:ℚ)/8 = linear ((0:ℚ), (0:ℚ), (1:ℚ), (2:ℚ)) (3/4)
    ∧ in_dom ((0:ℚ), (0:ℚ), (1:ℚ), (2:ℚ)) (3/4) = true
    ∧ in_dom ((0:ℚ), (3:ℚ), (1:ℚ), (1:ℚ)) (3/4) = true :=
  claim_C3_amended_thm _ _ (3/4) (3/8)
    (by norm_num [cross, delta, w, h, in_dom, in_range, linear])

/-- Claim C9: a tuple adapter and an array adapter holding the same
four coordinates give identical results for every derived operation:
`w`, `h`, `delta`, `in_dom`, `linear` and `cross`. -/
theorem claim_C9_thm (t u : ℚ × ℚ × ℚ × ℚ) (a b : Fin 4 → ℚ) (x : ℚ)
    (h1 : t.1 = a 0) (h2 : t.2.1 = a 1) (h3 : t.2.2.1 = a 2) (h4 : t.2.2.2 = a 3)
    (h5 : u.1 = b 0) (h6 : u.2.1 = b 1) (h7 : u.2.2.1 = b 2) (h8 : u.2.2.2 = b 3) :
    w t = w a ∧ h t = h a ∧ delta t = delta a ∧ in_dom t x = in_dom a x
    ∧ linear t x = linear a x ∧ cross t u = cross a b := by
  simp [w, h, delta, in_dom, linear, cross, in_range, h1, h2, h3, h4, h5, h6, h7, h8]

/-- Witness for claim C9 at the reference test coordinates. -/
theorem claim_C9_witness :
    w ((0:ℚ), (0:ℚ), (5:ℚ), (5:ℚ)) = w (fun i : Fin 4 => if i.val ≤ 1 then (0:ℚ) else 5)
    ∧ h ((0:ℚ), (0:ℚ), (5:ℚ), (5:ℚ)) = h (fun i : Fin 4 => if i.val ≤ 1 then (0:ℚ) else 5)
    ∧ delta ((0:ℚ), (0:ℚ), (5:ℚ), (5:ℚ))
        = delta (fun i : Fin 4 => if i.val ≤ 1 then (0:ℚ) else 5)
    ∧ in_dom ((0:ℚ), (0:ℚ), (5:ℚ), (5:ℚ)) 1
        = in_dom (fun i : Fin 4 => if i.val ≤ 1 then (0:ℚ) else 5) 1
    ∧ linear ((0:ℚ), (0:ℚ), (5:ℚ), (5:ℚ)) 1
        = linear (fun i : Fin 4 => if i.val ≤ 1 then (0:ℚ) else 5) 1
    ∧ cross ((0:ℚ), (0:ℚ), (5:ℚ), (5:ℚ)) ((5:ℚ), (0:ℚ), (0:ℚ), (5:ℚ))
        = cross (fun i : Fin 4 => if i.val ≤ 1 then (0:ℚ) else 5)
            (fun i : Fin 4 => if i.val = 0 then (5:ℚ) else if i.val ≤ 2 then 0 else 5) :=
  claim_C9_thm ((0:ℚ), (0:ℚ), (5:ℚ), (5:ℚ)) ((5:ℚ), (0:ℚ), (0:ℚ), (5:ℚ))
    (fun i : Fin 4 => if i.val ≤ 1 then (0:ℚ) else 5)
    (fun i : Fin 4 => if i.val = 0 then (5:ℚ) else if i.val ≤ 2 then 0 else 5) 1
    rfl rfl rfl rfl rfl rfl rfl rfl
